import Mathlib

/-!
Shallow embedding of `src/PID_ESP32/PID.c` (Arduino PID library v1.2.1
adapted to C and FreeRTOS).

Modelling decisions:
* C `double` arithmetic is modelled over `ℚ`.
* `unsigned long` millisecond timestamps are 32-bit on the ESP32 target,
  so the C subtraction `now - p_PID->lastTime` is modelled as subtraction
  modulo `2 ^ 32` (`ULONG_WRAP`); `millis()` readings are `Nat` values
  reduced modulo `ULONG_WRAP`.
* The three external numeric cells that the controller accesses through
  the pointers `myInput`, `myOutput`, `mySetpoint` are modelled as fields
  of the state holding the current cell values; every operation returns
  the whole new state, so writes to the cells are visible as field
  updates.
* `millis()` is an external input: the operations that call it
  (`PID_Compute`, `PID_constructor`) take the current reading `now` as an
  extra argument.
-/

/-- Modelled from the spec: the constants of the header `PID_v1.h`, which
is not among the source files; the spec describes plain two-valued enums
mode `AUTOMATIC | MANUAL`, direction `DIRECT | REVERSE` and proportional
mode `ON_ERROR | ON_MEASUREMENT`, matching the upstream Arduino header
values. -/
def AUTOMATIC : Int := 1

/-- Manual mode constant (see `AUTOMATIC`). -/
def MANUAL : Int := 0

/-- Direct controller direction constant (see `AUTOMATIC`). -/
def DIRECT : Int := 0

/-- Reverse controller direction constant (see `AUTOMATIC`). -/
def REVERSE : Int := 1

/-- Proportional-on-measurement constant (see `AUTOMATIC`). -/
def P_ON_M : Int := 0

/-- Proportional-on-error constant (see `AUTOMATIC`). -/
def P_ON_E : Int := 1

/-- Wraparound modulus of the 32-bit `unsigned long` used for millisecond
timestamps: `2 ^ 32`. -/
def ULONG_WRAP : Nat := 4294967296

/-- The state of the struct `PID_t`, together with the current values of
the three external cells the controller points at. -/
structure PIDState where
  myInput : ℚ
  myOutput : ℚ
  mySetpoint : ℚ
  kp : ℚ
  ki : ℚ
  kd : ℚ
  dispKp : ℚ
  dispKi : ℚ
  dispKd : ℚ
  pOn : Int
  pOnE : Bool
  outputSum : ℚ
  lastInput : ℚ
  lastTime : Nat
  SampleTime : Nat
  outMin : ℚ
  outMax : ℚ
  controllerDirection : Int
  inAuto : Bool
  deriving Repr, DecidableEq

/-- The clamping pattern `if(v > Max) v = Max; else if(v < Min) v = Min;`
used throughout `PID.c` on `outputSum` and on the output. -/
def clampOut (lo hi v : ℚ) : ℚ :=
  if v > hi then hi else if v < lo then lo else v

/-- Embedding of `PID_Compute` (PID.c lines 77-114).  `now` is the
`millis()` reading.  Returns the C return value paired with the new
state. -/
def PID_Compute (s : PIDState) (now : Nat) : Bool × PIDState :=
  if !s.inAuto then (false, s)
  else
    let timeChange : Nat :=
      (now % ULONG_WRAP + ULONG_WRAP - s.lastTime % ULONG_WRAP) % ULONG_WRAP
    if s.SampleTime ≤ timeChange then
      let input := s.myInput
      let error := s.mySetpoint - input
      let dInput := input - s.lastInput
      let sum0 := s.outputSum + s.ki * error
      let sum1 := if !s.pOnE then sum0 - s.kp * dInput else sum0
      let sum2 := clampOut s.outMin s.outMax sum1
      let out0 := if s.pOnE then s.kp * error else 0
      let out1 := out0 + sum2 - s.kd * dInput
      let out2 := clampOut s.outMin s.outMax out1
      (true, { s with
        outputSum := sum2
        myOutput := out2
        lastInput := input
        lastTime := now % ULONG_WRAP })
    else (false, s)

/-- Embedding of `PID_SetTunings` (PID.c lines 121-140). -/
def PID_SetTunings (s : PIDState) (Kp Ki Kd : ℚ) (POn : Int) : PIDState :=
  if Kp < 0 ∨ Ki < 0 ∨ Kd < 0 then s
  else
    let SampleTimeInSec : ℚ := (s.SampleTime : ℚ) / 1000
    let s1 := { s with
      pOn := POn
      pOnE := POn == P_ON_E
      dispKp := Kp
      dispKi := Ki
      dispKd := Kd
      kp := Kp
      ki := Ki * SampleTimeInSec
      kd := Kd / SampleTimeInSec }
    if s1.controllerDirection = REVERSE then
      { s1 with kp := 0 - s1.kp, ki := 0 - s1.ki, kd := 0 - s1.kd }
    else s1

/-- Embedding of `PID_SetTunings_simple` (PID.c lines 145-147): retunes
using the last-remembered `pOn` setting. -/
def PID_SetTunings_simple (s : PIDState) (Kp Ki Kd : ℚ) : PIDState :=
  PID_SetTunings s Kp Ki Kd s.pOn

/-- Embedding of `PID_SetSampleTime` (PID.c lines 152-161). -/
def PID_SetSampleTime (s : PIDState) (NewSampleTime : Int) : PIDState :=
  if 0 < NewSampleTime then
    let ratio : ℚ := (NewSampleTime : ℚ) / (s.SampleTime : ℚ)
    { s with
      ki := s.ki * ratio
      kd := s.kd / ratio
      SampleTime := NewSampleTime.toNat }
  else s

/-- Embedding of `PID_SetOutputLimits` (PID.c lines 171-184). -/
def PID_SetOutputLimits (s : PIDState) (Min Max : ℚ) : PIDState :=
  if Min ≥ Max then s
  else
    let s1 := { s with outMin := Min, outMax := Max }
    if s1.inAuto then
      { s1 with
        myOutput := clampOut s1.outMin s1.outMax s1.myOutput
        outputSum := clampOut s1.outMin s1.outMax s1.outputSum }
    else s1

/-- Embedding of `PID_Initialize` (PID.c lines 205-210). -/
def PID_Initialize (s : PIDState) : PIDState :=
  { s with
    outputSum := clampOut s.outMin s.outMax s.myOutput
    lastInput := s.myInput }

/-- Embedding of `PID_SetMode` (PID.c lines 191-199). -/
def PID_SetMode (s : PIDState) (Mode : Int) : PIDState :=
  let newAuto : Bool := Mode == AUTOMATIC
  let s1 := if newAuto && !s.inAuto then PID_Initialize s else s
  { s1 with inAuto := newAuto }

/-- Embedding of `PID_SetControllerDirection` (PID.c lines 218-226). -/
def PID_SetControllerDirection (s : PIDState) (Direction : Int) : PIDState :=
  let s1 :=
    if s.inAuto && Direction != s.controllerDirection then
      { s with kp := 0 - s.kp, ki := 0 - s.ki, kd := 0 - s.kd }
    else s
  { s1 with controllerDirection := Direction }

/-- Embedding of `PID_GetKp` (PID.c lines 233-235). -/
def PID_GetKp (s : PIDState) : ℚ := s.dispKp

/-- Embedding of `PID_GetKi` (PID.c lines 237-239). -/
def PID_GetKi (s : PIDState) : ℚ := s.dispKi

/-- Embedding of `PID_GetKd` (PID.c lines 241-243). -/
def PID_GetKd (s : PIDState) : ℚ := s.dispKd

/-- Embedding of `PID_GetMode` (PID.c lines 245-247). -/
def PID_GetMode (s : PIDState) : Int :=
  if s.inAuto then AUTOMATIC else MANUAL

/-- Embedding of `PID_GetDirection` (PID.c lines 249-251). -/
def PID_GetDirection (s : PIDState) : Int := s.controllerDirection

/-- Embedding of `PID_constructor` (PID.c lines 41-57).  `s0` holds the
indeterminate contents of the caller-allocated `PID_t` struct before
construction (the constructor leaves `outputSum`, `lastInput` and the
internal gains untouched until the nested calls set them); `Input`,
`Output`, `Setpoint` are the current values of the caller's cells and
`now` is the `millis()` reading. -/
def PID_constructor (s0 : PIDState) (Input Output Setpoint : ℚ)
    (Kp Ki Kd : ℚ) (POn ControllerDirection : Int) (now : Nat) : PIDState :=
  let s := { s0 with
    myOutput := Output
    myInput := Input
    mySetpoint := Setpoint
    inAuto := false }
  let s := PID_SetOutputLimits s 0 255
  let s := { s with SampleTime := 100 }
  let s := PID_SetControllerDirection s ControllerDirection
  let s := PID_SetTunings s Kp Ki Kd POn
  { s with lastTime :=
      (now % ULONG_WRAP + ULONG_WRAP - s.SampleTime % ULONG_WRAP) % ULONG_WRAP }

/-- A concrete all-zero state, standing for a zero-filled `PID_t` struct
before construction; used to build concrete witnesses. -/
def zeroPID : PIDState where
  myInput := 0
  myOutput := 0
  mySetpoint := 0
  kp := 0
  ki := 0
  kd := 0
  dispKp := 0
  dispKi := 0
  dispKd := 0
  pOn := 0
  pOnE := false
  outputSum := 0
  lastInput := 0
  lastTime := 0
  SampleTime := 0
  outMin := 0
  outMax := 0
  controllerDirection := 0
  inAuto := false

/-- A concrete running state in automatic mode, used to instantiate
witnesses: direct direction, proportional on error, gains already
derived for a 100 ms period, limits `[0, 255]`. -/
def csAuto : PIDState where
  myInput := 3
  myOutput := 7
  mySetpoint := 10
  kp := 2
  ki := 1/2
  kd := 1/4
  dispKp := 2
  dispKi := 5
  dispKd := 1/40
  pOn := 1
  pOnE := true
  outputSum := 5
  lastInput := 1
  lastTime := 0
  SampleTime := 100
  outMin := 0
  outMax := 255
  controllerDirection := 0
  inAuto := true

/-- The concrete state used for the C3 counterexample: a freshly
constructed controller (still in manual mode) whose output cell holds
100, after narrowing the output limits to `[0, 50]`. -/
def c3State : PIDState :=
  PID_SetOutputLimits
    (PID_constructor zeroPID 0 100 10 1 0 0 P_ON_E DIRECT 1000) 0 50

lemma ulong_sub_eq (lt now : Nat) (h1 : lt < ULONG_WRAP)
    (h2 : now < ULONG_WRAP) (h3 : lt ≤ now) :
    (now % ULONG_WRAP + ULONG_WRAP - lt % ULONG_WRAP) % ULONG_WRAP = now - lt := by
  unfold ULONG_WRAP at *
  omega

lemma le_clampOut (lo hi v : ℚ) (h : lo ≤ hi) : lo ≤ clampOut lo hi v := by
  unfold clampOut
  split_ifs <;> linarith

lemma clampOut_le (lo hi v : ℚ) (h : lo ≤ hi) : clampOut lo hi v ≤ hi := by
  unfold clampOut
  split_ifs <;> linarith

/-- C1: in automatic mode, when at least `SampleTime` milliseconds have
elapsed since `lastTime`, `PID_Compute` returns `true`, stores in the
output cell the clamp of `P + S - kd * (input - lastInput)` where `S` is
the new accumulator `clamp(outputSum + ki * (setpoint - input) -
(if proportional-on-measurement then kp * (input - lastInput) else 0))`
and `P` is `kp * (setpoint - input)` under proportional-on-error and `0`
otherwise, and afterwards `outputSum = S`, `lastInput = input` and
`lastTime = now`. -/
theorem C1_compute_accepted (s : PIDState) (now : Nat)
    (hauto : s.inAuto = true)
    (hlt : s.lastTime < ULONG_WRAP) (hnow : now < ULONG_WRAP)
    (hmono : s.lastTime ≤ now)
    (hdue : s.SampleTime ≤ now - s.lastTime) :
    (PID_Compute s now).1 = true ∧
    (PID_Compute s now).2.outputSum =
      clampOut s.outMin s.outMax
        (s.outputSum + s.ki * (s.mySetpoint - s.myInput) -
          (if s.pOnE = false then s.kp * (s.myInput - s.lastInput) else 0)) ∧
    (PID_Compute s now).2.myOutput =
      clampOut s.outMin s.outMax
        ((if s.pOnE = true then s.kp * (s.mySetpoint - s.myInput) else 0) +
          clampOut s.outMin s.outMax
            (s.outputSum + s.ki * (s.mySetpoint - s.myInput) -
              (if s.pOnE = false then s.kp * (s.myInput - s.lastInput) else 0)) -
          s.kd * (s.myInput - s.lastInput)) ∧
    (PID_Compute s now).2.lastInput = s.myInput ∧
    (PID_Compute s now).2.lastTime = now := by
  have htc : (now + ULONG_WRAP - s.lastTime % ULONG_WRAP) % ULONG_WRAP = now - s.lastTime := by
    unfold ULONG_WRAP at *
    omega
  have hnmod : now % ULONG_WRAP = now := Nat.mod_eq_of_lt hnow
  cases hp : s.pOnE <;>
    simp [PID_Compute, hauto, hnmod, htc, hdue, hp]

/-- C2: `PID_Compute` returns `false` and changes no state when the
controller is not in automatic mode, and likewise when it is in automatic
mode but fewer than `SampleTime` milliseconds have elapsed since
`lastTime`. -/
theorem C2_compute_rejected (s : PIDState) (now : Nat) :
    (s.inAuto = false → PID_Compute s now = (false, s)) ∧
    (s.inAuto = true → s.lastTime < ULONG_WRAP → now < ULONG_WRAP →
      s.lastTime ≤ now → now - s.lastTime < s.SampleTime →
      PID_Compute s now = (false, s)) := by
  constructor
  · intro h
    simp [PID_Compute, h]
  · intro hauto hlt hnow hmono hnotdue
    have htc := ulong_sub_eq s.lastTime now hlt hnow hmono
    have hcond : ¬ (s.SampleTime ≤
        (now % ULONG_WRAP + ULONG_WRAP - s.lastTime % ULONG_WRAP) % ULONG_WRAP) := by
      rw [htc]
      omega
    simp [PID_Compute, hauto, hcond]

/-- Witness for C1: the accepted-sample formula evaluated at the concrete
running state `csAuto` with `now = 600`. -/
theorem C1_witness :
    csAuto.inAuto = true ∧ csAuto.lastTime < ULONG_WRAP ∧ 600 < ULONG_WRAP ∧
    csAuto.lastTime ≤ 600 ∧ csAuto.SampleTime ≤ 600 - csAuto.lastTime ∧
    ((PID_Compute csAuto 600).1 = true ∧
      (PID_Compute csAuto 600).2.outputSum =
        clampOut csAuto.outMin csAuto.outMax
          (csAuto.outputSum + csAuto.ki * (csAuto.mySetpoint - csAuto.myInput) -
            (if csAuto.pOnE = false then csAuto.kp * (csAuto.myInput - csAuto.lastInput)
              else 0)) ∧
      (PID_Compute csAuto 600).2.myOutput =
        clampOut csAuto.outMin csAuto.outMax
          ((if csAuto.pOnE = true then csAuto.kp * (csAuto.mySetpoint - csAuto.myInput)
              else 0) +
            clampOut csAuto.outMin csAuto.outMax
              (csAuto.outputSum + csAuto.ki * (csAuto.mySetpoint - csAuto.myInput) -
                (if csAuto.pOnE = false then csAuto.kp * (csAuto.myInput - csAuto.lastInput)
                  else 0)) -
            csAuto.kd * (csAuto.myInput - csAuto.lastInput)) ∧
      (PID_Compute csAuto 600).2.lastInput = csAuto.myInput ∧
      (PID_Compute csAuto 600).2.lastTime = 600) :=
  ⟨rfl, by decide, by decide, by decide, by decide,
    C1_compute_accepted csAuto 600 rfl (by decide) (by decide) (by decide) (by decide)⟩

/-- Witness for C2: a manual-mode call and a too-early automatic-mode call,
both rejected without state change. -/
theorem C2_witness :
    zeroPID.inAuto = false ∧ PID_Compute zeroPID 0 = (false, zeroPID) ∧
    csAuto.inAuto = true ∧ 50 - csAuto.lastTime < csAuto.SampleTime ∧
    PID_Compute csAuto 50 = (false, csAuto) :=
  ⟨rfl, (C2_compute_rejected zeroPID 0).1 rfl, rfl, by decide,
    (C2_compute_rejected csAuto 50).2 rfl (by decide) (by decide) (by decide) (by decide)⟩

/-- C3 counterexample: `c3State` is reached by constructing a controller
(which starts in manual mode) whose output cell holds `100` and then
calling `PID_SetOutputLimits` with the valid bounds `[0, 50]`; since the
controller is not in automatic mode, the cells are not clamped, so after
the operation the output cell holds `100` while `outMax = 50`, refuting
the claim that the invariant holds after every public-API operation
regardless of mode. -/
theorem C3_counterexample :
    c3State.myOutput = 100 ∧ c3State.outMax = 50 ∧
    ¬ c3State.myOutput ≤ c3State.outMax := by
  norm_num [c3State, PID_SetOutputLimits, PID_constructor, PID_SetTunings,
    PID_SetControllerDirection, zeroPID, clampOut, P_ON_E, DIRECT, REVERSE, ULONG_WRAP]

/-- C3 (amended): after a `PID_Compute` call that accepts a sample, both
`outputSum` and the output cell lie within `[outMin, outMax]` (given the
maintained invariant `outMin ≤ outMax`), and after a `PID_SetOutputLimits`
call with `Min < Max` made while in automatic mode, both lie within
`[Min, Max]`; a `PID_SetOutputLimits` call made in manual mode stores the
bounds without clamping. -/
theorem C3_amended (s : PIDState) (now : Nat) (Min Max : ℚ) :
    (s.outMin ≤ s.outMax → (PID_Compute s now).1 = true →
      (s.outMin ≤ (PID_Compute s now).2.outputSum ∧
        (PID_Compute s now).2.outputSum ≤ s.outMax ∧
        s.outMin ≤ (PID_Compute s now).2.myOutput ∧
        (PID_Compute s now).2.myOutput ≤ s.outMax)) ∧
    (Min < Max → s.inAuto = true →
      (Min ≤ (PID_SetOutputLimits s Min Max).outputSum ∧
        (PID_SetOutputLimits s Min Max).outputSum ≤ Max ∧
        Min ≤ (PID_SetOutputLimits s Min Max).myOutput ∧
        (PID_SetOutputLimits s Min Max).myOutput ≤ Max)) := by
  constructor
  · intro hle htrue
    by_cases ha : s.inAuto
    · by_cases htc : s.SampleTime ≤
          (now % ULONG_WRAP + ULONG_WRAP - s.lastTime % ULONG_WRAP) % ULONG_WRAP
      · simp only [PID_Compute, ha, htc]
        simp only [Bool.not_true, Bool.false_eq_true, if_false, if_true]
        exact ⟨le_clampOut _ _ _ hle, clampOut_le _ _ _ hle,
          le_clampOut _ _ _ hle, clampOut_le _ _ _ hle⟩
      · exfalso
        simp [PID_Compute, ha, htc] at htrue
    · exfalso
      simp [PID_Compute, ha] at htrue
  · intro hlt hauto
    have hcond : ¬ (Min ≥ Max) := not_le.mpr hlt
    simp [PID_SetOutputLimits, hcond, hauto]
    exact ⟨le_clampOut _ _ _ hlt.le, clampOut_le _ _ _ hlt.le,
      le_clampOut _ _ _ hlt.le, clampOut_le _ _ _ hlt.le⟩

/-- Witness for C3 (amended): both parts at the concrete state `csAuto`,
`now = 600` and limits `[0, 50]`. -/
theorem C3_witness :
    csAuto.outMin ≤ csAuto.outMax ∧ (PID_Compute csAuto 600).1 = true ∧
    (csAuto.outMin ≤ (PID_Compute csAuto 600).2.outputSum ∧
      (PID_Compute csAuto 600).2.outputSum ≤ csAuto.outMax ∧
      csAuto.outMin ≤ (PID_Compute csAuto 600).2.myOutput ∧
      (PID_Compute csAuto 600).2.myOutput ≤ csAuto.outMax) ∧
    ((0 : ℚ) < 50 ∧ csAuto.inAuto = true) ∧
    ((0 : ℚ) ≤ (PID_SetOutputLimits csAuto 0 50).outputSum ∧
      (PID_SetOutputLimits csAuto 0 50).outputSum ≤ 50 ∧
      (0 : ℚ) ≤ (PID_SetOutputLimits csAuto 0 50).myOutput ∧
      (PID_SetOutputLimits csAuto 0 50).myOutput ≤ 50) :=
  ⟨by norm_num [csAuto],
    by norm_num [PID_Compute, csAuto, ULONG_WRAP],
    (C3_amended csAuto 600 0 50).1 (by norm_num [csAuto])
      (by norm_num [PID_Compute, csAuto, ULONG_WRAP]),
    ⟨by norm_num, rfl⟩,
    (C3_amended csAuto 600 0 50).2 (by norm_num) rfl⟩

/-- C4: `PID_SetTunings` with any negative gain, `PID_SetOutputLimits`
with `Min ≥ Max`, and `PID_SetSampleTime` with a non-positive period are
each complete no-ops: the whole state, external cells included, is
returned unchanged. -/
theorem C4_invalid_config_noop (s : PIDState) (Kp Ki Kd Min Max : ℚ)
    (POn NewSampleTime : Int) :
    (Kp < 0 ∨ Ki < 0 ∨ Kd < 0 → PID_SetTunings s Kp Ki Kd POn = s) ∧
    (Min ≥ Max → PID_SetOutputLimits s Min Max = s) ∧
    (NewSampleTime ≤ 0 → PID_SetSampleTime s NewSampleTime = s) := by
  refine ⟨fun h => ?_, fun h => ?_, fun h => ?_⟩
  · unfold PID_SetTunings
    rw [if_pos h]
  · unfold PID_SetOutputLimits
    rw [if_pos h]
  · unfold PID_SetSampleTime
    rw [if_neg (not_lt.mpr h)]

/-- Witness for C4: a negative proportional gain, equal limits, and a zero
sample period, each rejected at the concrete state `csAuto`. -/
theorem C4_witness :
    ((-1 : ℚ) < 0 ∨ (0 : ℚ) < 0 ∨ (0 : ℚ) < 0) ∧
    PID_SetTunings csAuto (-1) 0 0 1 = csAuto ∧
    ((5 : ℚ) ≥ 5) ∧ PID_SetOutputLimits csAuto 5 5 = csAuto ∧
    ((0 : Int) ≤ 0) ∧ PID_SetSampleTime csAuto 0 = csAuto :=
  ⟨Or.inl (by norm_num),
    (C4_invalid_config_noop csAuto (-1) 0 0 5 5 1 0).1 (Or.inl (by norm_num)),
    le_refl 5,
    (C4_invalid_config_noop csAuto (-1) 0 0 5 5 1 0).2.1 (le_refl 5),
    le_refl 0,
    (C4_invalid_config_noop csAuto (-1) 0 0 5 5 1 0).2.2 (le_refl 0)⟩

/-- C5: calling `PID_SetMode AUTOMATIC` from manual mode performs the
bumpless transfer: afterwards `outputSum` equals the output cell value
clamped into `[outMin, outMax]`, `lastInput` equals the input cell value,
and `inAuto` is true. -/
theorem C5_bumpless_transfer (s : PIDState) (hman : s.inAuto = false) :
    (PID_SetMode s AUTOMATIC).outputSum = clampOut s.outMin s.outMax s.myOutput ∧
    (PID_SetMode s AUTOMATIC).lastInput = s.myInput ∧
    (PID_SetMode s AUTOMATIC).inAuto = true := by
  simp [PID_SetMode, PID_Initialize, hman, AUTOMATIC]

/-- Witness for C5: bumpless transfer at the concrete manual-mode state
`zeroPID`. -/
theorem C5_witness :
    zeroPID.inAuto = false ∧
    (PID_SetMode zeroPID AUTOMATIC).outputSum =
      clampOut zeroPID.outMin zeroPID.outMax zeroPID.myOutput ∧
    (PID_SetMode zeroPID AUTOMATIC).lastInput = zeroPID.myInput ∧
    (PID_SetMode zeroPID AUTOMATIC).inAuto = true :=
  ⟨rfl, (C5_bumpless_transfer zeroPID rfl).1, (C5_bumpless_transfer zeroPID rfl).2.1,
    (C5_bumpless_transfer zeroPID rfl).2.2⟩

/-- C6: for non-negative gain triples, `PID_SetTunings` followed by the
display getters returns exactly the supplied values, for every state and
hence irrespective of the controller direction. -/
theorem C6_get_tunings_roundtrip (s : PIDState) (Kp Ki Kd : ℚ) (POn : Int)
    (hp : 0 ≤ Kp) (hi : 0 ≤ Ki) (hd : 0 ≤ Kd) :
    PID_GetKp (PID_SetTunings s Kp Ki Kd POn) = Kp ∧
    PID_GetKi (PID_SetTunings s Kp Ki Kd POn) = Ki ∧
    PID_GetKd (PID_SetTunings s Kp Ki Kd POn) = Kd := by
  have hno : ¬ (Kp < 0 ∨ Ki < 0 ∨ Kd < 0) := by
    push_neg
    exact ⟨hp, hi, hd⟩
  by_cases hdir : s.controllerDirection = REVERSE <;>
    simp [PID_SetTunings, PID_GetKp, PID_GetKi, PID_GetKd, hno, hdir]

/-- Witness for C6: round trip of the gains `(3, 4, 5)` at `csAuto` and
at its reverse-direction variant. -/
theorem C6_witness :
    (0 : ℚ) ≤ 3 ∧ (0 : ℚ) ≤ 4 ∧ (0 : ℚ) ≤ 5 ∧
    (PID_GetKp (PID_SetTunings csAuto 3 4 5 0) = 3 ∧
      PID_GetKi (PID_SetTunings csAuto 3 4 5 0) = 4 ∧
      PID_GetKd (PID_SetTunings csAuto 3 4 5 0) = 5) :=
  ⟨by norm_num, by norm_num, by norm_num,
    C6_get_tunings_roundtrip csAuto 3 4 5 0 (by norm_num) (by norm_num) (by norm_num)⟩

/-- C7: if the internal gains were derived by `PID_SetTunings` under a
positive period `s.SampleTime` then `PID_SetSampleTime NewST` (with
`NewST > 0`) multiplies `ki` by `NewST / SampleTime`, divides `kd` by the
same ratio, leaves `kp` unchanged, stores `NewST` as the new period, and
the resulting `ki` and `kd` equal what `PID_SetTunings` would have
derived directly under the period `NewST`. -/
theorem C7_sample_time_rescale (s : PIDState) (Kp Ki Kd : ℚ) (POn NewST : Int)
    (hT : 0 < s.SampleTime) (hN : 0 < NewST)
    (hp : 0 ≤ Kp) (hi : 0 ≤ Ki) (hd : 0 ≤ Kd) :
    (PID_SetSampleTime (PID_SetTunings s Kp Ki Kd POn) NewST).kp =
      (PID_SetTunings s Kp Ki Kd POn).kp ∧
    (PID_SetSampleTime (PID_SetTunings s Kp Ki Kd POn) NewST).ki =
      (PID_SetTunings s Kp Ki Kd POn).ki * ((NewST : ℚ) / (s.SampleTime : ℚ)) ∧
    (PID_SetSampleTime (PID_SetTunings s Kp Ki Kd POn) NewST).kd =
      (PID_SetTunings s Kp Ki Kd POn).kd / ((NewST : ℚ) / (s.SampleTime : ℚ)) ∧
    (PID_SetSampleTime (PID_SetTunings s Kp Ki Kd POn) NewST).SampleTime = NewST.toNat ∧
    (PID_SetSampleTime (PID_SetTunings s Kp Ki Kd POn) NewST).ki =
      (PID_SetTunings { s with SampleTime := NewST.toNat } Kp Ki Kd POn).ki ∧
    (PID_SetSampleTime (PID_SetTunings s Kp Ki Kd POn) NewST).kd =
      (PID_SetTunings { s with SampleTime := NewST.toNat } Kp Ki Kd POn).kd := by
  have hno : ¬ (Kp < 0 ∨ Ki < 0 ∨ Kd < 0) := by
    push_neg
    exact ⟨hp, hi, hd⟩
  have hTne : ((s.SampleTime : ℚ)) ≠ 0 := Nat.cast_ne_zero.mpr (Nat.pos_iff_ne_zero.mp hT)
  have hNne : ((NewST : ℚ)) ≠ 0 := Int.cast_ne_zero.mpr (ne_of_gt hN)
  have hcast : ((NewST.toNat : ℚ)) = (NewST : ℚ) := by
    exact_mod_cast Int.toNat_of_nonneg hN.le
  refine ⟨?_, ?_, ?_, ?_, ?_, ?_⟩ <;>
    by_cases hdir : s.controllerDirection = REVERSE <;>
      simp [PID_SetTunings, PID_SetSampleTime, hno, hdir, hN, hcast] <;>
        field_simp <;> ring

/-- Witness for C7: rescaling from the 100 ms period of `csAuto` to
250 ms with the gain triple `(3, 4, 5)`. -/
theorem C7_witness :
    0 < csAuto.SampleTime ∧ (0 : Int) < 250 ∧
    ((PID_SetSampleTime (PID_SetTunings csAuto 3 4 5 1) 250).kp =
        (PID_SetTunings csAuto 3 4 5 1).kp ∧
      (PID_SetSampleTime (PID_SetTunings csAuto 3 4 5 1) 250).ki =
        (PID_SetTunings csAuto 3 4 5 1).ki * (((250 : Int) : ℚ) / (csAuto.SampleTime : ℚ)) ∧
      (PID_SetSampleTime (PID_SetTunings csAuto 3 4 5 1) 250).kd =
        (PID_SetTunings csAuto 3 4 5 1).kd / (((250 : Int) : ℚ) / (csAuto.SampleTime : ℚ)) ∧
      (PID_SetSampleTime (PID_SetTunings csAuto 3 4 5 1) 250).SampleTime = (250 : Int).toNat ∧
      (PID_SetSampleTime (PID_SetTunings csAuto 3 4 5 1) 250).ki =
        (PID_SetTunings { csAuto with SampleTime := (250 : Int).toNat } 3 4 5 1).ki ∧
      (PID_SetSampleTime (PID_SetTunings csAuto 3 4 5 1) 250).kd =
        (PID_SetTunings { csAuto with SampleTime := (250 : Int).toNat } 3 4 5 1).kd) :=
  ⟨by decide, by decide,
    C7_sample_time_rescale csAuto 3 4 5 1 250 (by decide) (by decide)
      (by norm_num) (by norm_num) (by norm_num)⟩

/-- C8: calling `PID_SetMode AUTOMATIC` twice in succession yields
exactly the same state as calling it once; the second call only
reassigns the `inAuto` flag and does not run `PID_Initialize` again. -/
theorem C8_setmode_automatic_idempotent (s : PIDState) :
    PID_SetMode (PID_SetMode s AUTOMATIC) AUTOMATIC = PID_SetMode s AUTOMATIC := rfl

/-- C9: `PID_SetControllerDirection` always stores the new direction;
when called in automatic mode with a direction different from the
current one it additionally negates `kp`, `ki`, `kd` in place and leaves
every other field, the display gains and the three external cells
included, unchanged. -/
theorem C9_direction_flip (s : PIDState) (Direction : Int) :
    (PID_SetControllerDirection s Direction).controllerDirection = Direction ∧
    (s.inAuto = true → Direction ≠ s.controllerDirection →
      ((PID_SetControllerDirection s Direction).kp = 0 - s.kp ∧
        (PID_SetControllerDirection s Direction).ki = 0 - s.ki ∧
        (PID_SetControllerDirection s Direction).kd = 0 - s.kd ∧
        (PID_SetControllerDirection s Direction).dispKp = s.dispKp ∧
        (PID_SetControllerDirection s Direction).dispKi = s.dispKi ∧
        (PID_SetControllerDirection s Direction).dispKd = s.dispKd ∧
        (PID_SetControllerDirection s Direction).myInput = s.myInput ∧
        (PID_SetControllerDirection s Direction).myOutput = s.myOutput ∧
        (PID_SetControllerDirection s Direction).mySetpoint = s.mySetpoint ∧
        (PID_SetControllerDirection s Direction).pOn = s.pOn ∧
        (PID_SetControllerDirection s Direction).pOnE = s.pOnE ∧
        (PID_SetControllerDirection s Direction).outputSum = s.outputSum ∧
        (PID_SetControllerDirection s Direction).lastInput = s.lastInput ∧
        (PID_SetControllerDirection s Direction).lastTime = s.lastTime ∧
        (PID_SetControllerDirection s Direction).SampleTime = s.SampleTime ∧
        (PID_SetControllerDirection s Direction).outMin = s.outMin ∧
        (PID_SetControllerDirection s Direction).outMax = s.outMax ∧
        (PID_SetControllerDirection s Direction).inAuto = s.inAuto)) := by
  constructor
  · rfl
  · intro ha hd
    simp [PID_SetControllerDirection, ha, hd]

/-- Witness for C9: flipping `csAuto` (automatic, direct) to reverse. -/
theorem C9_witness :
    (PID_SetControllerDirection csAuto 1).controllerDirection = 1 ∧
    ((PID_SetControllerDirection csAuto 1).kp = 0 - csAuto.kp ∧
      (PID_SetControllerDirection csAuto 1).ki = 0 - csAuto.ki ∧
      (PID_SetControllerDirection csAuto 1).kd = 0 - csAuto.kd ∧
      (PID_SetControllerDirection csAuto 1).dispKp = csAuto.dispKp ∧
      (PID_SetControllerDirection csAuto 1).dispKi = csAuto.dispKi ∧
      (PID_SetControllerDirection csAuto 1).dispKd = csAuto.dispKd ∧
      (PID_SetControllerDirection csAuto 1).myInput = csAuto.myInput ∧
      (PID_SetControllerDirection csAuto 1).myOutput = csAuto.myOutput ∧
      (PID_SetControllerDirection csAuto 1).mySetpoint = csAuto.mySetpoint ∧
      (PID_SetControllerDirection csAuto 1).pOn = csAuto.pOn ∧
      (PID_SetControllerDirection csAuto 1).pOnE = csAuto.pOnE ∧
      (PID_SetControllerDirection csAuto 1).outputSum = csAuto.outputSum ∧
      (PID_SetControllerDirection csAuto 1).lastInput = csAuto.lastInput ∧
      (PID_SetControllerDirection csAuto 1).lastTime = csAuto.lastTime ∧
      (PID_SetControllerDirection csAuto 1).SampleTime = csAuto.SampleTime ∧
      (PID_SetControllerDirection csAuto 1).outMin = csAuto.outMin ∧
      (PID_SetControllerDirection csAuto 1).outMax = csAuto.outMax ∧
      (PID_SetControllerDirection csAuto 1).inAuto = csAuto.inAuto) :=
  ⟨(C9_direction_flip csAuto 1).1, (C9_direction_flip csAuto 1).2 rfl (by decide)⟩

/-- C10: `PID_Compute` never writes the input or setpoint cells, and
whenever it returns `false` it leaves the output cell untouched as well,
so the output cell is only written on an accepted sample. -/
theorem C10_compute_frame (s : PIDState) (now : Nat) :
    (PID_Compute s now).2.myInput = s.myInput ∧
    (PID_Compute s now).2.mySetpoint = s.mySetpoint ∧
    ((PID_Compute s now).1 = false → (PID_Compute s now).2.myOutput = s.myOutput) := by
  unfold PID_Compute
  by_cases ha : s.inAuto
  · by_cases htc : s.SampleTime ≤
        (now % ULONG_WRAP + ULONG_WRAP - s.lastTime % ULONG_WRAP) % ULONG_WRAP
    · simp [ha, htc]
    · simp [ha, htc]
  · simp [ha]

/-- Witness for C10: a rejected manual-mode call leaves all three cells
untouched. -/
theorem C10_witness :
    (PID_Compute zeroPID 0).2.myInput = zeroPID.myInput ∧
    (PID_Compute zeroPID 0).2.mySetpoint = zeroPID.mySetpoint ∧
    (PID_Compute zeroPID 0).2.myOutput = zeroPID.myOutput :=
  ⟨(C10_compute_frame zeroPID 0).1, (C10_compute_frame zeroPID 0).2.1,
    (C10_compute_frame zeroPID 0).2.2 rfl⟩
